import Mathlib

/-!
Shallow embedding of `assistant_bot.py`, an interactive command-line
address book.  Python strings are Lean `String`s, the mutable record and
book objects are immutable values threaded through the handlers, and
Python exceptions are modelled by `Except` with an explicit error type.
`datetime.date`/`datetime` values are triples of year, month, day
(the time-of-day part produced by `strptime('%d.%m.%Y')` is always
midnight, so it is kept implicit and only shows up in string formatting).
-/

namespace AssistantBot

/-- Python exception kinds that the program can raise.  `input_error`
catches exactly the first three; `attributeError` escapes it. -/
inductive PyErr where
  | valueError (msg : String)
  | keyError
  | indexError
  | attributeError (msg : String)
deriving DecidableEq, Repr

/-! ## Proleptic Gregorian dates, following `datetime.date` -/

/-- Leap year test of the Gregorian calendar. -/
def isLeap (y : Nat) : Bool :=
  y % 4 == 0 && (y % 100 != 0 || y % 400 == 0)

/-- Number of days in month `m` (1-12) of year `y`. -/
def daysInMonth (y m : Nat) : Nat :=
  match m with
  | 1 => 31 | 2 => if isLeap y then 29 else 28 | 3 => 31 | 4 => 30
  | 5 => 31 | 6 => 30 | 7 => 31 | 8 => 31 | 9 => 30 | 10 => 31
  | 11 => 30 | 12 => 31 | _ => 0

/-- Days in year `y` strictly before month `m`. -/
def daysBeforeMonth (y m : Nat) : Nat :=
  (match m with
   | 1 => 0 | 2 => 31 | 3 => 59 | 4 => 90 | 5 => 120 | 6 => 151
   | 7 => 181 | 8 => 212 | 9 => 243 | 10 => 273 | 11 => 304 | 12 => 334
   | _ => 0)
  + (if 3 ≤ m && isLeap y then 1 else 0)

/-- The range `datetime` accepts: `MINYEAR = 1`, `MAXYEAR = 9999`, a real
calendar day of the month. -/
def isValidDate (y m d : Nat) : Bool :=
  1 ≤ y && y ≤ 9999 && 1 ≤ m && m ≤ 12 && 1 ≤ d && d ≤ daysInMonth y m

/-- A calendar date, as `datetime.date` (and as `datetime` at midnight). -/
structure Date where
  year  : Nat
  month : Nat
  day   : Nat
deriving DecidableEq, Repr

/-- Python `date.toordinal()`: day number in the proleptic Gregorian
calendar with `0001-01-01` mapped to `1`. -/
def toordinal (d : Date) : Nat :=
  365 * (d.year - 1) + (d.year - 1) / 4 - (d.year - 1) / 100
    + (d.year - 1) / 400 + daysBeforeMonth d.year d.month + d.day

/-- Python `date.weekday()`: Monday is `0`, Sunday is `6`.
`0001-01-01` (ordinal `1`) was a Monday. -/
def pyWeekday (d : Date) : Nat :=
  (toordinal d + 6) % 7

/-- English weekday name as produced by `strftime('%A')` in the C locale,
indexed by `pyWeekday`. -/
def dayName : Nat → String
  | 0 => "Monday" | 1 => "Tuesday" | 2 => "Wednesday" | 3 => "Thursday"
  | 4 => "Friday" | 5 => "Saturday" | 6 => "Sunday" | _ => ""

/-! ## Unicode digit predicates used by the validators

Python's `str.isdigit` accepts every character whose Unicode property is
Numeric_Type=Decimal or Numeric_Type=Digit — the ASCII digits plus many
other code points (superscripts, Arabic-Indic digits, fullwidth digits,
…).  The regular-expression class `\d` used by `strptime` and the digit
strings `int()` converts are the smaller Nd (decimal) category, each such
code point carrying a decimal value.  Both sets are reproduced here
exactly, as contiguous code-point ranges. -/

/-- Python `str.isdigit()`, per character: the code point has Unicode
Numeric_Type Decimal or Digit. -/
def pyIsdigitChar (c : Char) : Bool :=
  let n := c.toNat
  (48 <= n && n <= 57) || (178 <= n && n <= 179) || n == 185 || (1632 <= n && n <= 1641)
  || (1776 <= n && n <= 1785) || (1984 <= n && n <= 1993) || (2406 <= n && n <= 2415) || (2534 <= n && n <= 2543)
  || (2662 <= n && n <= 2671) || (2790 <= n && n <= 2799) || (2918 <= n && n <= 2927) || (3046 <= n && n <= 3055)
  || (3174 <= n && n <= 3183) || (3302 <= n && n <= 3311) || (3430 <= n && n <= 3439) || (3558 <= n && n <= 3567)
  || (3664 <= n && n <= 3673) || (3792 <= n && n <= 3801) || (3872 <= n && n <= 3881) || (4160 <= n && n <= 4169)
  || (4240 <= n && n <= 4249) || (4969 <= n && n <= 4977) || (6112 <= n && n <= 6121) || (6160 <= n && n <= 6169)
  || (6470 <= n && n <= 6479) || (6608 <= n && n <= 6618) || (6784 <= n && n <= 6793) || (6800 <= n && n <= 6809)
  || (6992 <= n && n <= 7001) || (7088 <= n && n <= 7097) || (7232 <= n && n <= 7241) || (7248 <= n && n <= 7257)
  || n == 8304 || (8308 <= n && n <= 8313) || (8320 <= n && n <= 8329) || (9312 <= n && n <= 9320)
  || (9332 <= n && n <= 9340) || (9352 <= n && n <= 9360) || n == 9450 || (9461 <= n && n <= 9469)
  || n == 9471 || (10102 <= n && n <= 10110) || (10112 <= n && n <= 10120) || (10122 <= n && n <= 10130)
  || (42528 <= n && n <= 42537) || (43216 <= n && n <= 43225) || (43264 <= n && n <= 43273) || (43472 <= n && n <= 43481)
  || (43504 <= n && n <= 43513) || (43600 <= n && n <= 43609) || (44016 <= n && n <= 44025) || (65296 <= n && n <= 65305)
  || (66720 <= n && n <= 66729) || (68160 <= n && n <= 68163) || (68912 <= n && n <= 68921) || (69216 <= n && n <= 69224)
  || (69714 <= n && n <= 69722) || (69734 <= n && n <= 69743) || (69872 <= n && n <= 69881) || (69942 <= n && n <= 69951)
  || (70096 <= n && n <= 70105) || (70384 <= n && n <= 70393) || (70736 <= n && n <= 70745) || (70864 <= n && n <= 70873)
  || (71248 <= n && n <= 71257) || (71360 <= n && n <= 71369) || (71472 <= n && n <= 71481) || (71904 <= n && n <= 71913)
  || (72016 <= n && n <= 72025) || (72784 <= n && n <= 72793) || (73040 <= n && n <= 73049) || (73120 <= n && n <= 73129)
  || (92768 <= n && n <= 92777) || (92864 <= n && n <= 92873) || (93008 <= n && n <= 93017) || (120782 <= n && n <= 120831)
  || (123200 <= n && n <= 123209) || (123632 <= n && n <= 123641) || (125264 <= n && n <= 125273) || (127232 <= n && n <= 127242)
  || (130032 <= n && n <= 130041)

/-- Python `str.isdigit()`: non-empty and every character a digit. -/
def pyIsdigit (s : String) : Bool :=
  !s.data.isEmpty && s.data.all pyIsdigitChar

/-- Decimal value of a Unicode Nd character (the class `\d` matches in
`re`, and the digits `int()` converts), `none` for any other character. -/
def ndVal (c : Char) : Option Nat :=
  let n := c.toNat
  if 48 <= n && n <= 57 then some ((n - 48) % 10) else
  if 1632 <= n && n <= 1641 then some ((n - 1632) % 10) else
  if 1776 <= n && n <= 1785 then some ((n - 1776) % 10) else
  if 1984 <= n && n <= 1993 then some ((n - 1984) % 10) else
  if 2406 <= n && n <= 2415 then some ((n - 2406) % 10) else
  if 2534 <= n && n <= 2543 then some ((n - 2534) % 10) else
  if 2662 <= n && n <= 2671 then some ((n - 2662) % 10) else
  if 2790 <= n && n <= 2799 then some ((n - 2790) % 10) else
  if 2918 <= n && n <= 2927 then some ((n - 2918) % 10) else
  if 3046 <= n && n <= 3055 then some ((n - 3046) % 10) else
  if 3174 <= n && n <= 3183 then some ((n - 3174) % 10) else
  if 3302 <= n && n <= 3311 then some ((n - 3302) % 10) else
  if 3430 <= n && n <= 3439 then some ((n - 3430) % 10) else
  if 3558 <= n && n <= 3567 then some ((n - 3558) % 10) else
  if 3664 <= n && n <= 3673 then some ((n - 3664) % 10) else
  if 3792 <= n && n <= 3801 then some ((n - 3792) % 10) else
  if 3872 <= n && n <= 3881 then some ((n - 3872) % 10) else
  if 4160 <= n && n <= 4169 then some ((n - 4160) % 10) else
  if 4240 <= n && n <= 4249 then some ((n - 4240) % 10) else
  if 6112 <= n && n <= 6121 then some ((n - 6112) % 10) else
  if 6160 <= n && n <= 6169 then some ((n - 6160) % 10) else
  if 6470 <= n && n <= 6479 then some ((n - 6470) % 10) else
  if 6608 <= n && n <= 6617 then some ((n - 6608) % 10) else
  if 6784 <= n && n <= 6793 then some ((n - 6784) % 10) else
  if 6800 <= n && n <= 6809 then some ((n - 6800) % 10) else
  if 6992 <= n && n <= 7001 then some ((n - 6992) % 10) else
  if 7088 <= n && n <= 7097 then some ((n - 7088) % 10) else
  if 7232 <= n && n <= 7241 then some ((n - 7232) % 10) else
  if 7248 <= n && n <= 7257 then some ((n - 7248) % 10) else
  if 42528 <= n && n <= 42537 then some ((n - 42528) % 10) else
  if 43216 <= n && n <= 43225 then some ((n - 43216) % 10) else
  if 43264 <= n && n <= 43273 then some ((n - 43264) % 10) else
  if 43472 <= n && n <= 43481 then some ((n - 43472) % 10) else
  if 43504 <= n && n <= 43513 then some ((n - 43504) % 10) else
  if 43600 <= n && n <= 43609 then some ((n - 43600) % 10) else
  if 44016 <= n && n <= 44025 then some ((n - 44016) % 10) else
  if 65296 <= n && n <= 65305 then some ((n - 65296) % 10) else
  if 66720 <= n && n <= 66729 then some ((n - 66720) % 10) else
  if 68912 <= n && n <= 68921 then some ((n - 68912) % 10) else
  if 69734 <= n && n <= 69743 then some ((n - 69734) % 10) else
  if 69872 <= n && n <= 69881 then some ((n - 69872) % 10) else
  if 69942 <= n && n <= 69951 then some ((n - 69942) % 10) else
  if 70096 <= n && n <= 70105 then some ((n - 70096) % 10) else
  if 70384 <= n && n <= 70393 then some ((n - 70384) % 10) else
  if 70736 <= n && n <= 70745 then some ((n - 70736) % 10) else
  if 70864 <= n && n <= 70873 then some ((n - 70864) % 10) else
  if 71248 <= n && n <= 71257 then some ((n - 71248) % 10) else
  if 71360 <= n && n <= 71369 then some ((n - 71360) % 10) else
  if 71472 <= n && n <= 71481 then some ((n - 71472) % 10) else
  if 71904 <= n && n <= 71913 then some ((n - 71904) % 10) else
  if 72016 <= n && n <= 72025 then some ((n - 72016) % 10) else
  if 72784 <= n && n <= 72793 then some ((n - 72784) % 10) else
  if 73040 <= n && n <= 73049 then some ((n - 73040) % 10) else
  if 73120 <= n && n <= 73129 then some ((n - 73120) % 10) else
  if 92768 <= n && n <= 92777 then some ((n - 92768) % 10) else
  if 92864 <= n && n <= 92873 then some ((n - 92864) % 10) else
  if 93008 <= n && n <= 93017 then some ((n - 93008) % 10) else
  if 120782 <= n && n <= 120831 then some ((n - 120782) % 10) else
  if 123200 <= n && n <= 123209 then some ((n - 123200) % 10) else
  if 123632 <= n && n <= 123641 then some ((n - 123632) % 10) else
  if 125264 <= n && n <= 125273 then some ((n - 125264) % 10) else
  if 130032 <= n && n <= 130041 then some ((n - 130032) % 10) else
  none

/-! ## Validated field construction -/

/-- Embeds `Phone.__init__`: rejects the input unless it has length 10 and
`isdigit()` holds, otherwise stores the string unchanged. -/
def phoneInit (phone : String) : Except PyErr String :=
  if !(phone.length == 10 && pyIsdigit phone) then
    .error (.valueError "Phone number must be 10 digits long")
  else
    .ok phone

/-! ## `datetime.strptime(birthday, '%d.%m.%Y')`

CPython's `_strptime` compiles the format into the anchored regular
expression `(3[0-1]|[1-2]\d|0[1-9]|[1-9]| [1-9])\.(1[0-2]|0[1-9]|[1-9])\.(\d\d\d\d)`
and requires it to consume the whole input; the captured fields are then
converted with `int()` and passed to the `datetime` constructor, which
checks that they form a real calendar date.  The candidate lists below
reproduce the alternatives of each group in order, and trying them
left-to-right against the rest of the pattern reproduces backtracking. -/

/-- Alternatives of the day group `3[0-1]|[1-2]\d|0[1-9]|[1-9]| [1-9]`,
as `(value, remaining input)` pairs in the order the regex tries them. -/
def dayCands : List Char → List (Nat × List Char)
  | [] => []
  | [c1] => if '1' ≤ c1 && c1 ≤ '9' then [(c1.toNat - 48, [])] else []
  | c1 :: c2 :: rest =>
      (if c1 == '3' && (c2 == '0' || c2 == '1') then
        [(30 + (c2.toNat - 48), rest)] else [])
      ++ (if c1 == '1' || c1 == '2' then
            match ndVal c2 with
            | some v => [(10 * (c1.toNat - 48) + v, rest)]
            | none => []
          else [])
      ++ (if c1 == '0' && ('1' ≤ c2 && c2 ≤ '9') then
            [(c2.toNat - 48, rest)] else [])
      ++ (if '1' ≤ c1 && c1 ≤ '9' then
            [(c1.toNat - 48, c2 :: rest)] else [])
      ++ (if c1 == ' ' && ('1' ≤ c2 && c2 ≤ '9') then
            [(c2.toNat - 48, rest)] else [])

/-- Alternatives of the month group `1[0-2]|0[1-9]|[1-9]`. -/
def monthCands : List Char → List (Nat × List Char)
  | [] => []
  | [c1] => if '1' ≤ c1 && c1 ≤ '9' then [(c1.toNat - 48, [])] else []
  | c1 :: c2 :: rest =>
      (if c1 == '1' && ('0' ≤ c2 && c2 ≤ '2') then
        [(10 + (c2.toNat - 48), rest)] else [])
      ++ (if c1 == '0' && ('1' ≤ c2 && c2 ≤ '9') then
            [(c2.toNat - 48, rest)] else [])
      ++ (if '1' ≤ c1 && c1 ≤ '9' then
            [(c1.toNat - 48, c2 :: rest)] else [])

/-- The year group `\d\d\d\d` followed by end of input: exactly four
decimal digits, converted with `int()`. -/
def yearParse : List Char → Option Nat
  | [a, b, c, d] => do
      pure (1000 * (← ndVal a) + 100 * (← ndVal b) + 10 * (← ndVal c)
        + (← ndVal d))
  | _ => none

/-- All full matches of the `'%d.%m.%Y'` pattern against the input, in
backtracking order; `strptime` uses the first one. -/
def dmyMatches (cs : List Char) : List (Nat × Nat × Nat) :=
  (dayCands cs).flatMap fun dc =>
    match dc.2 with
    | c :: r2 =>
        if c = '.' then
          (monthCands r2).flatMap fun mc =>
            match mc.2 with
            | c' :: r4 =>
                if c' = '.' then
                  match yearParse r4 with
                  | some y => [(dc.1, mc.1, y)]
                  | none => []
                else []
            | [] => []
        else []
    | [] => []

/-- Embeds `datetime.strptime(s, '%d.%m.%Y')`: the first full regex match
gives day, month and year, then the `datetime` constructor validates them. -/
def strptimeDMY (s : String) : Except PyErr Date :=
  match dmyMatches s.data with
  | [] => .error (.valueError "time data does not match format")
  | (d, m, y) :: _ =>
      if isValidDate y m d then .ok ⟨y, m, d⟩
      else .error (.valueError "day is out of range for month")

/-- Embeds `Birthday.__init__`: any `ValueError` from `strptime` is
re-raised with a fixed message; on success the parsed date is stored. -/
def birthdayInit (birthday : String) : Except PyErr Date :=
  match strptimeDMY birthday with
  | .error _ => .error (.valueError "Date of birth must be in DD.MM.YYYY format")
  | .ok d => .ok d

/-! ## Records and the address book -/

/-- Embeds the `Record` class: a name, an optional birthday and the list
of stored phone values (each `Phone` object is represented by its mutable
`value` string).  `Record(name)` as called by `add_contact` corresponds to
`⟨name, none, []⟩`; `Name` performs no validation. -/
structure PyRecord where
  name : String
  birthday : Option Date
  phones : List String
deriving DecidableEq, Repr

/-- Embeds `Record.add_phone`: validates the number as a `Phone` and
appends it. -/
def addPhone (r : PyRecord) (phoneNumber : String) : Except PyErr PyRecord :=
  match phoneInit phoneNumber with
  | .error e => .error e
  | .ok p => .ok { r with phones := r.phones ++ [p] }

/-- Embeds `Record.find_phone`: first stored phone whose value equals the
argument. -/
def findPhone (r : PyRecord) (phoneNumber : String) : Option String :=
  r.phones.find? (· == phoneNumber)

/-- Replacement of the first occurrence of `old` by `new`, which is what
assigning to the found `Phone` object's `value` does to the list. -/
def replaceFirst : List String → String → String → List String
  | [], _, _ => []
  | p :: ps, old, new =>
      if p == old then new :: ps else p :: replaceFirst ps old new

/-- Embeds `Record.edit_phone`: if some stored phone equals `old`, its
value is overwritten with `new` (no format validation) and `True` is
returned; otherwise `False` and no change. -/
def editPhone (r : PyRecord) (old new : String) : Bool × PyRecord :=
  match findPhone r old with
  | some _ => (true, { r with phones := replaceFirst r.phones old new })
  | none => (false, r)

/-- Embeds `Record.add_birthday`: validates and overwrites the birthday. -/
def addBirthdayR (r : PyRecord) (birthday : String) : Except PyErr PyRecord :=
  match birthdayInit birthday with
  | .error e => .error e
  | .ok d => .ok { r with birthday := some d }

/-- The `AddressBook`'s underlying `dict`, as an insertion-ordered list of
key-record pairs with distinct keys. -/
abbrev Book := List (String × PyRecord)

/-- Python `dict` assignment `data[k] = v`: overwrite in place if the key
is present, else append at the end. -/
def dictSet (data : Book) (k : String) (v : PyRecord) : Book :=
  match data with
  | [] => [(k, v)]
  | (k', v') :: rest =>
      if k' == k then (k, v) :: rest else (k', v') :: dictSet rest k v

/-- Python `dict.get(k)`. -/
def dictGet (data : Book) (k : String) : Option PyRecord :=
  match data with
  | [] => none
  | (k', v') :: rest => if k' == k then some v' else dictGet rest k

/-- Embeds `AddressBook.add_record`: stores the record under its name.
The `isinstance` guard of the source always holds here, the type being
static. -/
def addRecord (book : Book) (r : PyRecord) : Book :=
  dictSet book r.name r

/-- Embeds `AddressBook.find`. -/
def findRecord (book : Book) (name : String) : Option PyRecord :=
  dictGet book name

/-- Embeds `AddressBook.delete`: removes the key when present. -/
def deleteRecord (book : Book) (name : String) : Book :=
  match book with
  | [] => []
  | (k', v') :: rest =>
      if k' == name then rest else (k', v') :: deleteRecord rest name

/-! ## The weekly-birthday query -/

/-- Grouping structure of `defaultdict(list)` as iterated by the caller:
keys in first-insertion order, each carrying its names in append order. -/
abbrev Buckets := List (String × List String)

/-- Appends `nm` to the group of `day`, creating the group at the end if
absent — exactly `defaultdict(list)[day].append(nm)`. -/
def addToBucket : Buckets → String → String → Buckets
  | [], day, nm => [(day, [nm])]
  | (d, nms) :: rest, day, nm =>
      if d == day then (d, nms ++ [nm]) :: rest
      else (d, nms) :: addToBucket rest day nm

/-- Python `birthday.replace(year=y)`: succeeds when the resulting date is
valid (it fails exactly on Feb 29 projected into a non-leap year, given a
valid input date). -/
def replaceYear (b : Date) (y : Nat) : Except PyErr Date :=
  if isValidDate y b.month b.day then .ok ⟨y, b.month, b.day⟩
  else .error (.valueError "day is out of range for month")

/-- Ordinal of `end` in `get_birthdays_per_week`: the Sunday of the week
of the most recent Monday on/before `today`
(`today - timedelta(days=today.weekday()) + timedelta(days=6)`). -/
def weekEndOrd (today : Date) : Int :=
  (toordinal today : Int) - pyWeekday today + 6

/-- Days from `end` to the birthday projected onto the current year:
`(birthday_this_year - end).days`. -/
def deltaDays (today bty : Date) : Int :=
  (toordinal bty : Int) - weekEndOrd today

/-- Loop body of `get_birthdays_per_week` for one record. -/
def gbpwStep (today : Date) (acc : Buckets) (name : String)
    (r : PyRecord) : Except PyErr Buckets :=
  match r.birthday with
  | none =>
      .error (.attributeError "NoneType object has no attribute value")
  | some b =>
      match replaceYear b today.year with
      | .error e => .error e
      | .ok bty =>
          let delta := deltaDays today bty
          if delta ≤ 5 && delta > -2 then
            let dw := dayName (pyWeekday bty)
            let dw := if dw == "Saturday" || dw == "Sunday" then "Monday" else dw
            .ok (addToBucket acc dw name)
          else
            .ok acc

/-- Folds `gbpwStep` over the records in iteration order. -/
def gbpwAux (today : Date) : List (String × PyRecord) → Buckets →
    Except PyErr Buckets
  | [], acc => .ok acc
  | (n, r) :: rest, acc =>
      match gbpwStep today acc n r with
      | .error e => .error e
      | .ok acc' => gbpwAux today rest acc'

/-- Embeds `AddressBook.get_birthdays_per_week`; `today`, obtained from
`datetime.today()` in the source, is passed explicitly. -/
def getBirthdaysPerWeek (book : Book) (today : Date) :
    Except PyErr Buckets :=
  gbpwAux today book []

/-! ## Command handlers

Each raw handler returns the result string and the book state; a raised
exception carries the book state at the point of the raise, so that the
`input_error` wrapper returns the book as the handler left it.  Unpacking
an argument list of the wrong length (`name, phone = args`,
`[name] = args`) raises `ValueError` in Python. -/

/-- Result of a handler body: a string and the book, or an exception with
the book as mutated so far. -/
abbrev HRes := Except (PyErr × Book) (String × Book)

/-- Embeds the `input_error` decorator.  `KeyError` maps to
"Can't find the contact.", `IndexError` to "No arguments.", and every
`ValueError` to "Give the correct data, please" — the guard
`str(VError) in VErrorPhone or VErrorBirthday` is always truthy, `or`
binding looser than `in` and `VErrorBirthday` being a non-empty string.
Other exceptions propagate. -/
def inputError (res : HRes) : HRes :=
  match res with
  | .ok r => .ok r
  | .error (.keyError, b) => .ok ("Can't find the contact.", b)
  | .error (.valueError _, b) => .ok ("Give the correct data, please", b)
  | .error (.indexError, b) => .ok ("No arguments.", b)
  | .error (.attributeError m, b) => .error (.attributeError m, b)

/-- Body of `add_contact`: unpack two arguments, build a fresh `Record`
with no birthday, validate and add the phone, then store the record. -/
def addContactRaw (args : List String) (book : Book) : HRes :=
  match args with
  | [name, phone] =>
      match addPhone ⟨name, none, []⟩ phone with
      | .error e => .error (e, book)
      | .ok record => .ok ("Contact added.", addRecord book record)
  | _ => .error (.valueError "values to unpack", book)

/-- The decorated `add_contact` handler. -/
def addContact (args : List String) (book : Book) : HRes :=
  inputError (addContactRaw args book)

/-- Body of `change_contact`: looks the name up and replaces the first
stored phone (`record.phones[0]` raises `IndexError` when empty) with the
new value, unvalidated. -/
def changeContactRaw (args : List String) (book : Book) : HRes :=
  match args with
  | [name, phone] =>
      match findRecord book name with
      | some record =>
          match record.phones with
          | [] => .error (.indexError, book)
          | p0 :: _ =>
              let er := editPhone record p0 phone
              .ok ("Contact updated.", dictSet book name er.2)
      | none => .ok ("Not found.", book)
  | _ => .error (.valueError "values to unpack", book)

/-- The decorated `change` handler. -/
def changeContact (args : List String) (book : Book) : HRes :=
  inputError (changeContactRaw args book)

/-- Body of `show_phone`: comma-joined phone values of the record. -/
def showPhoneRaw (args : List String) (book : Book) : HRes :=
  match args with
  | [name] =>
      match findRecord book name with
      | some record => .ok (", ".intercalate record.phones, book)
      | none => .ok ("Not found.", book)
  | _ => .error (.valueError "values to unpack", book)

/-- The decorated `phone` handler. -/
def showPhone (args : List String) (book : Book) : HRes :=
  inputError (showPhoneRaw args book)

/-- Body of `show_all`: one line per record, in insertion order. -/
def showAllRaw (book : Book) : HRes :=
  if book.isEmpty then .ok ("No contacts stored.", book)
  else
    .ok ("\n".intercalate (book.map fun p =>
      p.2.name ++ ": " ++ ", ".intercalate p.2.phones), book)

/-- The decorated `all` handler. -/
def showAll (book : Book) : HRes :=
  inputError (showAllRaw book)

/-- Body of `add_birthday`: looks the name up and sets a validated
birthday on the record. -/
def addBirthdayRaw (args : List String) (book : Book) : HRes :=
  match args with
  | [name, birthday] =>
      match findRecord book name with
      | some record =>
          match addBirthdayR record birthday with
          | .error e => .error (e, book)
          | .ok record' => .ok ("Birthday added.", dictSet book name record')
      | none => .ok ("Contact not found.", book)
  | _ => .error (.valueError "values to unpack", book)

/-- The decorated `add-birthday` handler. -/
def addBirthday (args : List String) (book : Book) : HRes :=
  inputError (addBirthdayRaw args book)

/-- Zero-padded two-digit decimal rendering. -/
def pad2 (n : Nat) : String :=
  if n < 10 then "0" ++ toString n else toString n

/-- Zero-padded four-digit decimal rendering. -/
def pad4 (n : Nat) : String :=
  if n < 10 then "000" ++ toString n
  else if n < 100 then "00" ++ toString n
  else if n < 1000 then "0" ++ toString n
  else toString n

/-- Python `str(datetime(y, m, d, 0, 0))`, the display the source produces
for a stored birthday: ISO date followed by the midnight time. -/
def pyStrDatetime (d : Date) : String :=
  pad4 d.year ++ "-" ++ pad2 d.month ++ "-" ++ pad2 d.day ++ " 00:00:00"

/-- Body of `show_birthday`: `str(record.birthday)` when the record exists
and has one, else the fixed not-found message. -/
def showBirthdayRaw (args : List String) (book : Book) : HRes :=
  match args with
  | [name] =>
      match findRecord book name with
      | some record =>
          match record.birthday with
          | some b => .ok (pyStrDatetime b, book)
          | none => .ok ("No birthday found for this contact.", book)
      | none => .ok ("No birthday found for this contact.", book)
  | _ => .error (.valueError "values to unpack", book)

/-- The decorated `show-birthday` handler. -/
def showBirthday (args : List String) (book : Book) : HRes :=
  inputError (showBirthdayRaw args book)

/-- Body of `show_birthdays_next_week`: formats the weekly-birthday query
per day, or reports that nothing qualifies. -/
def showBirthdaysNextWeekRaw (book : Book) (today : Date) : HRes :=
  match getBirthdaysPerWeek book today with
  | .error e => .error (e, book)
  | .ok buckets =>
      match buckets with
      | [] => .ok ("No birthdays next week.", book)
      | _ =>
          .ok ("\n".intercalate (buckets.map fun g =>
            g.1 ++ ": " ++ ", ".intercalate g.2), book)

/-- The decorated `birthdays` handler. -/
def showBirthdaysNextWeek (book : Book) (today : Date) : HRes :=
  inputError (showBirthdaysNextWeekRaw book today)

/-! ## Derived definitions used by the statements -/

/-- ASCII digit test, the class the specification describes for phones. -/
def isAsciiDigit (c : Char) : Bool :=
  '0' ≤ c && c ≤ '9'

/-- The literal shape `DD.MM.YYYY` the specification describes: ten
characters, ASCII digits everywhere except dots at positions 2 and 5. -/
def isDDMMYYYYstr (s : String) : Bool :=
  match s.data with
  | [d1, d2, dot1, m1, m2, dot2, y1, y2, y3, y4] =>
      isAsciiDigit d1 && isAsciiDigit d2 && dot1 == '.' &&
      isAsciiDigit m1 && isAsciiDigit m2 && dot2 == '.' &&
      isAsciiDigit y1 && isAsciiDigit y2 && isAsciiDigit y3 && isAsciiDigit y4
  | _ => false

/-- The birthday projected onto the current year,
`birthday.replace(year=today.year)` when it is a valid date. -/
def birthdayThisYear (today b : Date) : Date :=
  ⟨today.year, b.month, b.day⟩

/-- The inclusion window of `get_birthdays_per_week` for a stored
birthday `b`: `delta_days <= 5 and delta_days > -2` with
`delta_days = (birthday_this_year - end).days`. -/
def inWindow (today b : Date) : Bool :=
  deltaDays today (birthdayThisYear today b) ≤ 5 &&
    deltaDays today (birthdayThisYear today b) > -2

/-- The weekday bucket an included contact lands in: the projected
birthday's weekday name, with Saturday and Sunday remapped to Monday. -/
def bucketOf (today b : Date) : String :=
  let dw := dayName (pyWeekday (birthdayThisYear today b))
  if dw == "Saturday" || dw == "Sunday" then "Monday" else dw

/-- Membership of name `nm` under key `day` in a bucket structure. -/
def inBuckets (bs : Buckets) (day nm : String) : Prop :=
  ∃ g ∈ bs, g.1 = day ∧ nm ∈ g.2

/-- A record the weekly-birthday loop can process without raising: it has
a birthday and the projection onto `today`'s year is a valid date. -/
def recordOk (today : Date) (r : PyRecord) : Bool :=
  match r.birthday with
  | none => false
  | some b => isValidDate today.year b.month b.day

/-! ## Shared lemmas -/

theorem dictGet_dictSet_self (d : Book) (k : String) (v : PyRecord) :
    dictGet (dictSet d k v) k = some v := by
  induction d with
  | nil => simp [dictSet, dictGet]
  | cons hd tl ih =>
      obtain ⟨k', v'⟩ := hd
      by_cases h : k' == k
      · simp [dictSet, dictGet, h]
      · simp only [dictSet, dictGet, h, if_neg]
        simpa [h] using ih

/-! ## Claim theorems -/

/-- Claim C2 (code bug): on a book whose single record has no birthday,
the `birthdays` handler does not return a string — the attribute access
`record.birthday.value` raises `AttributeError`, which `input_error` does
not catch, so the exception escapes the handler boundary. -/
theorem C2_birthdays_handler_not_total :
    showBirthdaysNextWeek [("alice", ⟨"alice", none, ["1234567890"]⟩)]
        ⟨2024, 6, 3⟩
      = .error (.attributeError "NoneType object has no attribute value",
          [("alice", ⟨"alice", none, ["1234567890"]⟩)]) := by
  rfl

/-- Claim C3 (counterexample): a string of ten ARABIC-INDIC DIGIT ZERO
characters (U+0660) is accepted by `Phone` construction although none of
its characters is an ASCII digit, refuting the claimed "only if". -/
theorem C3_phone_nonascii_accepted :
    phoneInit (String.mk (List.replicate 10 (Char.ofNat 1632)))
        = .ok (String.mk (List.replicate 10 (Char.ofNat 1632))) ∧
      (String.mk (List.replicate 10 (Char.ofNat 1632))).data.all isAsciiDigit
        = false := by
  constructor
  · rfl
  · rfl

/-- Claim C3 (amended): `Phone` construction succeeds, storing the string
unchanged, iff the string has exactly ten characters and every character
is a Unicode digit in the sense of `str.isdigit` (a strict superset of
the ASCII digits); every other string fails with the phone `ValueError`. -/
theorem C3_phone_validation (s : String) :
    (phoneInit s = .ok s ↔
      s.length = 10 ∧ s.data.all pyIsdigitChar = true) ∧
    (¬ (s.length = 10 ∧ s.data.all pyIsdigitChar = true) →
      phoneInit s = .error (.valueError "Phone number must be 10 digits long")) := by
  have hlen : s.length = s.data.length := rfl
  by_cases h : s.length = 10 ∧ s.data.all pyIsdigitChar = true
  · obtain ⟨h1, h2⟩ := h
    have hne : s.data.isEmpty = false := by
      cases hd : s.data with
      | nil => rw [hlen, hd] at h1; simp at h1
      | cons a l => simp
    have hok : phoneInit s = .ok s := by
      simp [phoneInit, pyIsdigit, h1, h2, hne]
    exact ⟨by simp [hok, h1, h2], fun hc => absurd ⟨h1, h2⟩ hc⟩
  · have herr : phoneInit s = .error (.valueError "Phone number must be 10 digits long") := by
      rcases Decidable.not_and_iff_or_not.mp h with h' | h'
      · simp [phoneInit, h']
      · have : s.data.all pyIsdigitChar = false := by
          simpa using h'
        simp [phoneInit, pyIsdigit, this]
    refine ⟨⟨fun hc => ?_, fun hc => absurd hc h⟩, fun _ => herr⟩
    rw [herr] at hc
    cases hc

/-- Witness for C3_phone_validation at a valid ten-digit string. -/
theorem C3_phone_validation_witness :
    phoneInit "1234567890" = .ok "1234567890" :=
  (C3_phone_validation "1234567890").1.mpr (by decide)

/-- Claim C5 (counterexample): calling the `add` handler with a single
argument (a missing required positional) returns
"Give the correct data, please", not "No arguments.". -/
theorem C5_wrong_arity_message :
    addContact ["alice"] [] = .ok ("Give the correct data, please", []) ∧
      ("Give the correct data, please" : String) ≠ "No arguments." := by
  exact ⟨rfl, by decide⟩

/-- Claim C5 (amended): a wrong number of positional arguments makes the
tuple unpacking raise `ValueError`, which `input_error` maps to
"Give the correct data, please" (leaving the book unchanged); the string
"No arguments." is produced only for `IndexError`, which no unpacking
raises. -/
theorem C5_wrong_arity_handlers (args : List String) (book : Book) :
    (args.length ≠ 2 →
      addContact args book = .ok ("Give the correct data, please", book) ∧
      changeContact args book = .ok ("Give the correct data, please", book) ∧
      addBirthday args book = .ok ("Give the correct data, please", book)) ∧
    (args.length ≠ 1 →
      showPhone args book = .ok ("Give the correct data, please", book) ∧
      showBirthday args book = .ok ("Give the correct data, please", book)) := by
  match args with
  | [] =>
      refine ⟨fun _ => ⟨rfl, rfl, rfl⟩, fun _ => ⟨rfl, rfl⟩⟩
  | [a] =>
      exact ⟨fun _ => ⟨rfl, rfl, rfl⟩, fun h => absurd rfl h⟩
  | [a, b] =>
      exact ⟨fun h => absurd rfl h, fun _ => ⟨rfl, rfl⟩⟩
  | a :: b :: c :: rest =>
      exact ⟨fun _ => ⟨rfl, rfl, rfl⟩, fun _ => ⟨rfl, rfl⟩⟩

/-- Witness for C5_wrong_arity_handlers at a one-element argument list. -/
theorem C5_wrong_arity_handlers_witness :
    addContact ["alice"] [] = .ok ("Give the correct data, please", []) :=
  ((C5_wrong_arity_handlers ["alice"] []).1 (by decide)).1

/-- Claim C6 (counterexample): for a stored birthday 05.06.1990 the
`show-birthday` handler returns "1990-06-05 00:00:00" — the `str()` of the
stored `datetime` — which is not of the claimed shape `DD.MM.YYYY`. -/
theorem C6_show_birthday_format :
    showBirthday ["alice"]
        [("alice", ⟨"alice", some ⟨1990, 6, 5⟩, ["1234567890"]⟩)]
      = .ok ("1990-06-05 00:00:00",
          [("alice", ⟨"alice", some ⟨1990, 6, 5⟩, ["1234567890"]⟩)]) ∧
      isDDMMYYYYstr "1990-06-05 00:00:00" = false := by
  exact ⟨rfl, rfl⟩

/-- Claim C6 (amended): for every contact that exists and has a birthday,
`show-birthday` returns `str(datetime(y, m, d))`, i.e. the ISO-formatted
string "YYYY-MM-DD 00:00:00", with the book unchanged. -/
theorem C6_show_birthday_value (book : Book) (name : String)
    (r : PyRecord) (b : Date)
    (h1 : findRecord book name = some r) (h2 : r.birthday = some b) :
    showBirthday [name] book = .ok (pyStrDatetime b, book) := by
  simp [showBirthday, showBirthdayRaw, h1, h2, inputError]

/-- Witness for C6_show_birthday_value on a concrete one-record book. -/
theorem C6_show_birthday_value_witness :
    showBirthday ["alice"]
        [("alice", ⟨"alice", some ⟨1990, 6, 5⟩, ["9876543210"]⟩)]
      = .ok (pyStrDatetime ⟨1990, 6, 5⟩,
          [("alice", ⟨"alice", some ⟨1990, 6, 5⟩, ["9876543210"]⟩)]) :=
  C6_show_birthday_value _ "alice" ⟨"alice", some ⟨1990, 6, 5⟩, ["9876543210"]⟩
    ⟨1990, 6, 5⟩ (by rfl) (by rfl)

/-- List-level behaviour behind `edit_phone`: when `old` occurs, `find?`
succeeds and `replaceFirst` rewrites exactly the first occurrence. -/
theorem replaceFirst_first_occurrence (ps : List String) (old new : String)
    (hmem : old ∈ ps) :
    ∃ i, ∃ h : i < ps.length,
      ps.get ⟨i, h⟩ = old ∧
      (∀ j (hj : j < i), ps.get ⟨j, Nat.lt_trans hj h⟩ ≠ old) ∧
      replaceFirst ps old new = ps.set i new ∧
      ps.find? (· == old) = some old := by
  induction ps with
  | nil => cases hmem
  | cons p ps ih =>
      by_cases hp : p = old
      · refine ⟨0, Nat.succ_pos _, ?_, ?_, ?_, ?_⟩
        · simpa using hp
        · intro j hj; cases hj
        · simp [replaceFirst, hp]
        · simp [List.find?, hp]
      · have hmem' : old ∈ ps := by
          rcases List.mem_cons.mp hmem with h | h
          · exact absurd h.symm hp
          · exact h
        obtain ⟨i, h, hget, hfirst, hrep, hfind⟩ := ih hmem'
        refine ⟨i + 1, Nat.succ_lt_succ h, ?_, ?_, ?_, ?_⟩
        · simpa using hget
        · intro j hj
          match j with
          | 0 => simpa using hp
          | j + 1 =>
              have hj' : j < i := Nat.lt_of_succ_lt_succ hj
              simpa using hfirst j hj'
        · simp [replaceFirst, hp, hrep]
        · have hpb : (p == old) = false := by simpa using hp
          simp [List.find?, hpb, hfind]

/-- Claim C7: `edit_phone(old, new)` overwrites the value of the first
stored phone equal to `old` with `new` — whatever string `new` is, no
format check — and returns `true`; with no match it returns `false` and
leaves the phone list untouched. -/
theorem C7_edit_phone (r : PyRecord) (old new : String) :
    (old ∈ r.phones →
      ∃ i, ∃ h : i < r.phones.length,
        r.phones.get ⟨i, h⟩ = old ∧
        (∀ j (hj : j < i), r.phones.get ⟨j, Nat.lt_trans hj h⟩ ≠ old) ∧
        editPhone r old new = (true, { r with phones := r.phones.set i new })) ∧
    (old ∉ r.phones → editPhone r old new = (false, r)) := by
  constructor
  · intro hmem
    obtain ⟨i, h, hget, hfirst, hrep, hfind⟩ :=
      replaceFirst_first_occurrence r.phones old new hmem
    exact ⟨i, h, hget, hfirst, by simp [editPhone, findPhone, hfind, hrep]⟩
  · intro hmem
    have hfind : r.phones.find? (· == old) = none := by
      rw [List.find?_eq_none]
      intro x hx
      simp only [beq_iff_eq]
      intro hxe
      exact hmem (hxe ▸ hx)
    simp [editPhone, findPhone, hfind]

/-- Witness for C7_edit_phone: both branches at concrete records. -/
theorem C7_edit_phone_witness :
    editPhone ⟨"alice", none, ["1234567890", "1234567890"]⟩ "1234567890" "x"
        = (true, ⟨"alice", none, ["x", "1234567890"]⟩) ∧
      editPhone ⟨"alice", none, ["1234567890"]⟩ "0000000000" "x"
        = (false, ⟨"alice", none, ["1234567890"]⟩) := by
  constructor
  · obtain ⟨i, h, hget, hfirst, hrep⟩ :=
      (C7_edit_phone ⟨"alice", none, ["1234567890", "1234567890"]⟩
        "1234567890" "x").1 (by decide)
    have hi : i = 0 := by
      rcases i with _ | i
      · rfl
      · exact absurd (by rfl) (hfirst 0 (Nat.succ_pos _))
    subst hi
    simpa using hrep
  · exact (C7_edit_phone ⟨"alice", none, ["1234567890"]⟩ "0000000000" "x").2
      (by decide)

/-- Claim C8: storing two records that carry one name, the second
`add_record` overwrites the first, so `find` returns the second record. -/
theorem C8_add_record_overwrites (book : Book) (r1 r2 : PyRecord)
    (h : r1.name = r2.name) :
    findRecord (addRecord (addRecord book r1) r2) r1.name = some r2 := by
  rw [h]
  simpa [findRecord, addRecord] using
    dictGet_dictSet_self (addRecord book r1) r2.name r2

/-- Witness for C8_add_record_overwrites on a concrete book. -/
theorem C8_add_record_overwrites_witness :
    findRecord
        (addRecord (addRecord [] ⟨"alice", none, ["1234567890"]⟩)
          ⟨"alice", none, ["0987654321"]⟩)
        ("alice")
      = some ⟨"alice", none, ["0987654321"]⟩ :=
  C8_add_record_overwrites [] ⟨"alice", none, ["1234567890"]⟩
    ⟨"alice", none, ["0987654321"]⟩ (by rfl)

/-- Caught-exception results of `input_error` return the book exactly as
the handler body left it at the raise point. -/
theorem inputError_err {e : PyErr} {b0 : Book} {s : String} {b' : Book}
    (h : inputError (.error (e, b0)) = .ok (s, b')) : b' = b0 := by
  rcases e with m | _ | _ | m <;> simp [inputError] at h <;> exact h.2.symm

/-- Claim C9: whenever a handler invocation produces anything other than
its success message, the address book it returns is exactly the input
book — validation and lookups happen before the single mutation step. -/
theorem C9_failure_leaves_book (args : List String) (book : Book) :
    (∀ s b', addContact args book = .ok (s, b') →
      s ≠ "Contact added." → b' = book) ∧
    (∀ s b', changeContact args book = .ok (s, b') →
      s ≠ "Contact updated." → b' = book) ∧
    (∀ s b', addBirthday args book = .ok (s, b') →
      s ≠ "Birthday added." → b' = book) ∧
    (∀ s b', showPhone args book = .ok (s, b') → b' = book) ∧
    (∀ s b', showBirthday args book = .ok (s, b') → b' = book) ∧
    (∀ s b', showAll book = .ok (s, b') → b' = book) ∧
    (∀ today s b', showBirthdaysNextWeek book today = .ok (s, b') →
      b' = book) := by
  refine ⟨?_, ?_, ?_, ?_, ?_, ?_, ?_⟩
  · intro s b' h hs
    rcases args with _ | ⟨a, _ | ⟨b, _ | ⟨c, rest⟩⟩⟩
    · exact inputError_err h
    · exact inputError_err h
    · rcases hap : addPhone ⟨a, none, []⟩ b with e | rec
      · rw [show addContact [a, b] book = inputError (.error (e, book)) by
          simp [addContact, addContactRaw, hap]] at h
        exact inputError_err h
      · rw [show addContact [a, b] book
            = .ok ("Contact added.", addRecord book rec) by
          simp [addContact, addContactRaw, hap, inputError]] at h
        simp at h
        exact absurd h.1.symm hs
    · exact inputError_err h
  · intro s b' h hs
    rcases args with _ | ⟨a, _ | ⟨b, _ | ⟨c, rest⟩⟩⟩
    · exact inputError_err h
    · exact inputError_err h
    · rcases hf : findRecord book a with _ | record
      · rw [show changeContact [a, b] book = .ok ("Not found.", book) by
          simp [changeContact, changeContactRaw, hf, inputError]] at h
        simp at h
        exact h.2.symm
      · rcases hph : record.phones with _ | ⟨p0, ps⟩
        · rw [show changeContact [a, b] book
              = inputError (.error (.indexError, book)) by
            simp [changeContact, changeContactRaw, hf, hph]] at h
          exact inputError_err h
        · rw [show changeContact [a, b] book
              = .ok ("Contact updated.",
                  dictSet book a (editPhone record p0 b).2) by
            simp [changeContact, changeContactRaw, hf, hph, inputError]] at h
          simp at h
          exact absurd h.1.symm hs
    · exact inputError_err h
  · intro s b' h hs
    rcases args with _ | ⟨a, _ | ⟨b, _ | ⟨c, rest⟩⟩⟩
    · exact inputError_err h
    · exact inputError_err h
    · rcases hf : findRecord book a with _ | record
      · rw [show addBirthday [a, b] book = .ok ("Contact not found.", book) by
          simp [addBirthday, addBirthdayRaw, hf, inputError]] at h
        simp at h
        exact h.2.symm
      · rcases hab : addBirthdayR record b with e | record'
        · rw [show addBirthday [a, b] book
              = inputError (.error (e, book)) by
            simp [addBirthday, addBirthdayRaw, hf, hab]] at h
          exact inputError_err h
        · rw [show addBirthday [a, b] book
              = .ok ("Birthday added.", dictSet book a record') by
            simp [addBirthday, addBirthdayRaw, hf, hab, inputError]] at h
          simp at h
          exact absurd h.1.symm hs
    · exact inputError_err h
  · intro s b' h
    rcases args with _ | ⟨a, _ | ⟨b, rest⟩⟩
    · exact inputError_err h
    · rcases hf : findRecord book a with _ | record <;>
        · simp [showPhone, showPhoneRaw, hf, inputError] at h
          exact h.2.symm
    · exact inputError_err h
  · intro s b' h
    rcases args with _ | ⟨a, _ | ⟨b, rest⟩⟩
    · exact inputError_err h
    · rcases hf : findRecord book a with _ | record
      · rw [show showBirthday [a] book
            = .ok ("No birthday found for this contact.", book) by
          simp [showBirthday, showBirthdayRaw, hf, inputError]] at h
        simp at h
        exact h.2.symm
      · rcases hb : record.birthday with _ | bd <;>
          · simp [showBirthday, showBirthdayRaw, hf, hb, inputError] at h
            exact h.2.symm
    · exact inputError_err h
  · intro s b' h
    rcases hbk : book.isEmpty with _ | _ <;>
      · simp [showAll, showAllRaw, hbk, inputError] at h
        exact h.2.symm
  · intro today s b' h
    rcases hg : getBirthdaysPerWeek book today with e | buckets
    · rw [show showBirthdaysNextWeek book today
          = inputError (.error (e, book)) by
        simp [showBirthdaysNextWeek, showBirthdaysNextWeekRaw, hg]] at h
      exact inputError_err h
    · rcases hbu : buckets with _ | ⟨g, gs⟩ <;>
        · subst hbu
          simp [showBirthdaysNextWeek, showBirthdaysNextWeekRaw, hg,
            inputError] at h
          exact h.2.symm

/-- Witness for C9_failure_leaves_book: a concrete failing `add` (invalid
phone) returns the error message and the unchanged book. -/
theorem C9_failure_leaves_book_witness :
    addContact ["alice", "123"] [("bob", ⟨"bob", none, ["1234567890"]⟩)]
        = .ok ("Give the correct data, please",
            [("bob", ⟨"bob", none, ["1234567890"]⟩)]) ∧
      ([("bob", ⟨"bob", none, ["1234567890"]⟩)] : Book)
        = [("bob", ⟨"bob", none, ["1234567890"]⟩)] :=
  ⟨by rfl,
    (C9_failure_leaves_book ["alice", "123"]
        [("bob", ⟨"bob", none, ["1234567890"]⟩)]).1
      "Give the correct data, please"
      [("bob", ⟨"bob", none, ["1234567890"]⟩)] (by rfl) (by decide)⟩

/-- Claim C10: when a record under `name` already exists, the `add`
command with a valid phone overwrites it with a fresh record holding only
the one new phone and no birthday, and still reports "Contact added.". -/
theorem C10_add_replaces_record (book : Book) (name phone : String)
    (r0 : PyRecord) (h0 : findRecord book name = some r0)
    (hp : phoneInit phone = .ok phone) :
    addContact [name, phone] book =
      .ok ("Contact added.", addRecord book ⟨name, none, [phone]⟩) ∧
    findRecord (addRecord book ⟨name, none, [phone]⟩) name =
      some ⟨name, none, [phone]⟩ := by
  constructor
  · simp [addContact, addContactRaw, addPhone, hp, inputError, addRecord]
  · simpa [findRecord, addRecord] using
      dictGet_dictSet_self book name ⟨name, none, [phone]⟩

/-- Witness for C10_add_replaces_record: the stored phones and birthday of
the concrete existing record are discarded. -/
theorem C10_add_replaces_record_witness :
    addContact ["alice", "0987654321"]
        [("alice", ⟨"alice", some ⟨1990, 6, 5⟩, ["1234567890", "5550001111"]⟩)]
      = .ok ("Contact added.", [("alice", ⟨"alice", none, ["0987654321"]⟩)]) ∧
    findRecord [("alice", ⟨"alice", none, ["0987654321"]⟩)] "alice" =
      some ⟨"alice", none, ["0987654321"]⟩ := by
  have h := C10_add_replaces_record
    [("alice", ⟨"alice", some ⟨1990, 6, 5⟩, ["1234567890", "5550001111"]⟩)]
    "alice" "0987654321"
    ⟨"alice", some ⟨1990, 6, 5⟩, ["1234567890", "5550001111"]⟩
    (by rfl) (by rfl)
  exact ⟨h.1, h.2⟩

/-- Membership after a `defaultdict` append: the new structure holds
exactly the old members plus `x` under `k`. -/
theorem inBuckets_addToBucket (bs : Buckets) (k x day nm : String) :
    inBuckets (addToBucket bs k x) day nm ↔
      inBuckets bs day nm ∨ (day = k ∧ nm = x) := by
  induction bs with
  | nil =>
      constructor
      · rintro ⟨g, hg, h1, h2⟩
        simp only [addToBucket, List.mem_singleton] at hg
        subst hg
        simp only [List.mem_singleton] at h2
        exact Or.inr ⟨h1.symm, h2⟩
      · rintro (⟨g, hg, h⟩ | ⟨h1, h2⟩)
        · cases hg
        · exact ⟨(k, [x]), by simp [addToBucket], h1.symm, by simp [h2]⟩
  | cons g0 rest ih =>
      obtain ⟨d, nms⟩ := g0
      by_cases hd : d = k
      · subst hd
        have hstep : addToBucket ((d, nms) :: rest) d x
            = (d, nms ++ [x]) :: rest := by
          simp [addToBucket]
        rw [hstep]
        constructor
        · rintro ⟨g, hg, h1, h2⟩
          rcases List.mem_cons.mp hg with rfl | hg2
          · simp only [List.mem_append, List.mem_singleton] at h2
            rcases h2 with h2 | h2
            · exact Or.inl ⟨(d, nms), List.mem_cons_self _ _, h1, h2⟩
            · exact Or.inr ⟨h1.symm, h2⟩
          · exact Or.inl ⟨g, List.mem_cons_of_mem _ hg2, h1, h2⟩
        · rintro (⟨g, hg, h1, h2⟩ | ⟨h1, h2⟩)
          · rcases List.mem_cons.mp hg with rfl | hg2
            · exact ⟨(d, nms ++ [x]), List.mem_cons_self _ _, h1, by
                simp only [List.mem_append]
                exact Or.inl h2⟩
            · exact ⟨g, List.mem_cons_of_mem _ hg2, h1, h2⟩
          · exact ⟨(d, nms ++ [x]), List.mem_cons_self _ _, h1.symm, by
              simp [h2]⟩
      · have hdb : (d == k) = false := by simpa using hd
        have hstep : addToBucket ((d, nms) :: rest) k x
            = (d, nms) :: addToBucket rest k x := by
          simp [addToBucket, hdb]
        rw [hstep]
        constructor
        · rintro ⟨g, hg, h1, h2⟩
          rcases List.mem_cons.mp hg with rfl | hg2
          · exact Or.inl ⟨(d, nms), List.mem_cons_self _ _, h1, h2⟩
          · rcases ih.mp ⟨g, hg2, h1, h2⟩ with h | h
            · obtain ⟨g2, hg3, hh⟩ := h
              exact Or.inl ⟨g2, List.mem_cons_of_mem _ hg3, hh⟩
            · exact Or.inr h
        · rintro (⟨g, hg, h1, h2⟩ | ⟨h1, h2⟩)
          · rcases List.mem_cons.mp hg with rfl | hg2
            · exact ⟨(d, nms), List.mem_cons_self _ _, h1, h2⟩
            · obtain ⟨g2, hg3, hh⟩ := ih.mpr (Or.inl ⟨g, hg2, h1, h2⟩)
              exact ⟨g2, List.mem_cons_of_mem _ hg3, hh⟩
          · obtain ⟨g2, hg3, hh⟩ := ih.mpr (Or.inr ⟨h1, h2⟩)
            exact ⟨g2, List.mem_cons_of_mem _ hg3, hh⟩

/-- Entries of a list with pairwise-distinct keys agree when their keys
do. -/
theorem eq_of_nodup_keys (l : List (String × PyRecord))
    (hnd : (l.map Prod.fst).Nodup) {p q : String × PyRecord}
    (hp : p ∈ l) (hq : q ∈ l) (hpq : p.1 = q.1) : p = q := by
  induction l with
  | nil => cases hp
  | cons a tl ih =>
      rw [List.map_cons] at hnd
      have hnd' := List.nodup_cons.mp hnd
      rcases List.mem_cons.mp hp with rfl | hp'
      · rcases List.mem_cons.mp hq with rfl | hq'
        · rfl
        · exact absurd (by rw [hpq]; exact List.mem_map_of_mem Prod.fst hq')
            hnd'.1
      · rcases List.mem_cons.mp hq with rfl | hq'
        · exact absurd (by rw [← hpq]; exact List.mem_map_of_mem Prod.fst hp')
            hnd'.1
        · exact ih hnd'.2 hp' hq'

/-- One loop iteration of `get_birthdays_per_week` on a processable
record: the contact is appended to its bucket iff the window test holds. -/
theorem gbpwStep_eq (today : Date) (acc : Buckets) (name : String)
    (r : PyRecord) (b : Date) (hb : r.birthday = some b)
    (hv : isValidDate today.year b.month b.day = true) :
    gbpwStep today acc name r =
      .ok (if inWindow today b then addToBucket acc (bucketOf today b) name
          else acc) := by
  simp only [gbpwStep, hb, replaceYear, hv, if_true, inWindow, bucketOf,
    birthdayThisYear, apply_ite Except.ok]

/-- Invariant of the fold inside `get_birthdays_per_week`: the final
buckets hold the accumulator's members plus exactly the qualifying
contacts of the remaining records, each under its bucket. -/
theorem gbpwAux_spec (today : Date) (l : List (String × PyRecord))
    (acc : Buckets) (H : ∀ p ∈ l, recordOk today p.2 = true) :
    ∃ m, gbpwAux today l acc = .ok m ∧
      ∀ day nm, inBuckets m day nm ↔
        (inBuckets acc day nm ∨
          ∃ p ∈ l, p.1 = nm ∧ ∃ b, p.2.birthday = some b ∧
            inWindow today b = true ∧ day = bucketOf today b) := by
  induction l generalizing acc with
  | nil => exact ⟨acc, rfl, by simp⟩
  | cons q rest ih =>
      obtain ⟨n, r⟩ := q
      have hq := H (n, r) (List.mem_cons_self _ _)
      obtain ⟨b, hb, hv⟩ : ∃ b, r.birthday = some b ∧
          isValidDate today.year b.month b.day = true := by
        unfold recordOk at hq
        rcases hr : r.birthday with _ | b
        · rw [hr] at hq; cases hq
        · rw [hr] at hq; exact ⟨b, rfl, hq⟩
      have hstep := gbpwStep_eq today acc n r b hb hv
      have hH : ∀ p ∈ rest, recordOk today p.2 = true :=
        fun p hp => H p (List.mem_cons_of_mem _ hp)
      by_cases hw : inWindow today b = true
      · rw [hw, if_pos rfl] at hstep
        obtain ⟨m, hm, hmem⟩ := ih (addToBucket acc (bucketOf today b) n) hH
        refine ⟨m, by simp [gbpwAux, hstep, hm], ?_⟩
        intro day nm
        rw [hmem day nm, inBuckets_addToBucket]
        constructor
        · rintro ((hacc | ⟨hday, hnm⟩) | ⟨p, hpmem, h1, b', hb', hw', hday⟩)
          · exact Or.inl hacc
          · exact Or.inr ⟨(n, r), List.mem_cons_self _ _, hnm.symm,
              b, hb, hw, hday⟩
          · exact Or.inr ⟨p, List.mem_cons_of_mem _ hpmem, h1, b', hb', hw',
              hday⟩
        · rintro (hacc | ⟨p, hpmem, h1, b', hb', hw', hday⟩)
          · exact Or.inl (Or.inl hacc)
          · rcases List.mem_cons.mp hpmem with rfl | hpmem'
            · have hbb : b' = b := by
                rw [hb] at hb'
                exact (Option.some.inj hb').symm
              exact Or.inl (Or.inr ⟨hbb ▸ hday, h1.symm⟩)
            · exact Or.inr ⟨p, hpmem', h1, b', hb', hw', hday⟩
      · have hwf : inWindow today b = false := by
          simpa using hw
        rw [hwf] at hstep
        simp only [Bool.false_eq_true, if_false] at hstep
        obtain ⟨m, hm, hmem⟩ := ih acc hH
        refine ⟨m, by simp [gbpwAux, hstep, hm], ?_⟩
        intro day nm
        rw [hmem day nm]
        constructor
        · rintro (hacc | ⟨p, hpmem, h1, b', hb', hw', hday⟩)
          · exact Or.inl hacc
          · exact Or.inr ⟨p, List.mem_cons_of_mem _ hpmem, h1, b', hb', hw',
              hday⟩
        · rintro (hacc | ⟨p, hpmem, h1, b', hb', hw', hday⟩)
          · exact Or.inl hacc
          · rcases List.mem_cons.mp hpmem with rfl | hpmem'
            · rw [hb] at hb'
              have hbb : b = b' := Option.some.inj hb'
              rw [← hbb] at hw'
              exact absurd hw' (by simp [hwf])
            · exact Or.inr ⟨p, hpmem', h1, b', hb', hw', hday⟩

/-- Claim C1: on any book whose records the query can process (each has a
birthday whose projection onto `today`'s year is a valid date) with
distinct keys, the weekly-birthday query succeeds, and a contact appears
in the result exactly under the days `day` with
`-2 < delta_days <= 5` and `day` the projected birthday's weekday name,
Saturday and Sunday remapped to Monday. -/
theorem C1_birthday_window (book : Book) (today : Date)
    (H : ∀ p ∈ book, recordOk today p.2 = true)
    (Hnd : (book.map Prod.fst).Nodup) :
    ∃ m, getBirthdaysPerWeek book today = .ok m ∧
      ∀ p ∈ book, ∀ b, p.2.birthday = some b →
        ∀ day, inBuckets m day p.1 ↔
          (inWindow today b = true ∧ day = bucketOf today b) := by
  obtain ⟨m, hm, hmem⟩ := gbpwAux_spec today book [] H
  refine ⟨m, hm, ?_⟩
  intro p hp b hb day
  rw [hmem day p.1]
  constructor
  · rintro (⟨g, hg, h⟩ | ⟨q, hq, hq1, b', hb', hw', hday⟩)
    · cases hg
    · have hqp : q = p := eq_of_nodup_keys book Hnd hq hp hq1
      subst hqp
      rw [hb] at hb'
      have hbb : b = b' := Option.some.inj hb'
      subst hbb
      exact ⟨hw', hday⟩
  · rintro ⟨hw, hday⟩
    exact Or.inr ⟨p, hp, rfl, b, hb, hw, hday⟩

/-- Witness for C1_birthday_window: the week of Monday 2024-06-03 with
three contacts; the hypotheses are discharged by computation. -/
theorem C1_birthday_window_witness :
    (∀ p ∈ ([("alice", ⟨"alice", some ⟨1990, 6, 5⟩, ["1234567890"]⟩),
        ("bob", ⟨"bob", some ⟨1995, 6, 8⟩, []⟩),
        ("carol", ⟨"carol", some ⟨1999, 6, 10⟩, []⟩)] : Book),
      recordOk ⟨2024, 6, 3⟩ p.2 = true) ∧
    (∃ m, getBirthdaysPerWeek
        [("alice", ⟨"alice", some ⟨1990, 6, 5⟩, ["1234567890"]⟩),
          ("bob", ⟨"bob", some ⟨1995, 6, 8⟩, []⟩),
          ("carol", ⟨"carol", some ⟨1999, 6, 10⟩, []⟩)]
        ⟨2024, 6, 3⟩ = .ok m ∧
      ∀ p ∈ ([("alice", ⟨"alice", some ⟨1990, 6, 5⟩, ["1234567890"]⟩),
          ("bob", ⟨"bob", some ⟨1995, 6, 8⟩, []⟩),
          ("carol", ⟨"carol", some ⟨1999, 6, 10⟩, []⟩)] : Book),
        ∀ b, p.2.birthday = some b →
          ∀ day, inBuckets m day p.1 ↔
            (inWindow ⟨2024, 6, 3⟩ b = true ∧
              day = bucketOf ⟨2024, 6, 3⟩ b)) :=
  ⟨by decide,
    C1_birthday_window
      [("alice", ⟨"alice", some ⟨1990, 6, 5⟩, ["1234567890"]⟩),
        ("bob", ⟨"bob", some ⟨1995, 6, 8⟩, []⟩),
        ("carol", ⟨"carol", some ⟨1999, 6, 10⟩, []⟩)]
      ⟨2024, 6, 3⟩ (by decide) (by decide)⟩

/-- Claim C4 (counterexample): "5.06.1990" does not have the claimed
two-digit-day shape, yet `Birthday` construction succeeds on it. -/
theorem C4_one_digit_day_accepted :
    birthdayInit "5.06.1990" = .ok ⟨1990, 6, 5⟩ ∧
      isDDMMYYYYstr "5.06.1990" = false := by
  exact ⟨rfl, rfl⟩

/-- The ASCII digit character carrying value `v`. -/
def digitChar (v : Nat) : Char :=
  Char.ofNat (48 + v)

theorem ndVal_digitChar (v : Nat) (h : v ≤ 9) :
    ndVal (digitChar v) = some v := by
  interval_cases v <;> rfl

theorem digitChar_ne_dot (v : Nat) (h : v ≤ 9) : ¬ digitChar v = '.' := by
  interval_cases v <;> decide

/-- Day-group alternatives on two ASCII digits: the two-digit token is
accepted for values 1–31, and a leading digit 1–9 also offers the
one-digit fallback. -/
theorem dayCands_digits (d1 d2 : Nat) (h1 : d1 ≤ 9) (h2 : d2 ≤ 9)
    (rest : List Char) :
    dayCands (digitChar d1 :: digitChar d2 :: rest) =
      (if 1 ≤ 10 * d1 + d2 ∧ 10 * d1 + d2 ≤ 31 then
        [(10 * d1 + d2, rest)] else [])
      ++ (if 1 ≤ d1 then [(d1, digitChar d2 :: rest)] else []) := by
  interval_cases d1 <;> interval_cases d2 <;> rfl

/-- Month-group alternatives on two ASCII digits: the two-digit token is
accepted for values 1–12, plus the one-digit fallback. -/
theorem monthCands_digits (m1 m2 : Nat) (h1 : m1 ≤ 9) (h2 : m2 ≤ 9)
    (rest : List Char) :
    monthCands (digitChar m1 :: digitChar m2 :: rest) =
      (if 1 ≤ 10 * m1 + m2 ∧ 10 * m1 + m2 ≤ 12 then
        [(10 * m1 + m2, rest)] else [])
      ++ (if 1 ≤ m1 then [(m1, digitChar m2 :: rest)] else []) := by
  interval_cases m1 <;> interval_cases m2 <;> rfl

theorem yearParse_digits (y1 y2 y3 y4 : Nat) (h1 : y1 ≤ 9) (h2 : y2 ≤ 9)
    (h3 : y3 ≤ 9) (h4 : y4 ≤ 9) :
    yearParse [digitChar y1, digitChar y2, digitChar y3, digitChar y4]
      = some (1000 * y1 + 100 * y2 + 10 * y3 + y4) := by
  simp [yearParse, ndVal_digitChar y1 h1, ndVal_digitChar y2 h2,
    ndVal_digitChar y3 h3, ndVal_digitChar y4 h4]

theorem daysInMonth_le_31 (y m : Nat) : daysInMonth y m ≤ 31 := by
  unfold daysInMonth
  split <;> first | omega | split <;> omega

/-- Claim C4 (amended): on a strict `DD.MM.YYYY` string (two ASCII-digit
day, two-digit month, four-digit year, dot-separated), `Birthday`
construction succeeds iff the digits denote a real calendar date, and it
stores exactly that date; but the pattern actually matched is strptime's
`%d.%m.%Y`, which also accepts one-digit and space-padded day and
one-digit month forms, so strings outside the `DD.MM.YYYY` shape do not
all fail. -/
theorem C4_birthday_validation (d1 d2 m1 m2 y1 y2 y3 y4 : Nat)
    (hd1 : d1 ≤ 9) (hd2 : d2 ≤ 9) (hm1 : m1 ≤ 9) (hm2 : m2 ≤ 9)
    (hy1 : y1 ≤ 9) (hy2 : y2 ≤ 9) (hy3 : y3 ≤ 9) (hy4 : y4 ≤ 9) :
    (birthdayInit (String.mk [digitChar d1, digitChar d2, '.',
          digitChar m1, digitChar m2, '.',
          digitChar y1, digitChar y2, digitChar y3, digitChar y4])
        = .ok ⟨1000 * y1 + 100 * y2 + 10 * y3 + y4, 10 * m1 + m2,
            10 * d1 + d2⟩
      ↔ isValidDate (1000 * y1 + 100 * y2 + 10 * y3 + y4) (10 * m1 + m2)
          (10 * d1 + d2) = true) ∧
    birthdayInit " 5.6.1990" = .ok ⟨1990, 6, 5⟩ := by
  refine ⟨?_, by rfl⟩
  set dy := 10 * d1 + d2 with hdy
  set mo := 10 * m1 + m2 with hmo
  set yr := 1000 * y1 + 100 * y2 + 10 * y3 + y4 with hyr
  have hne2 : ¬ digitChar d2 = '.' := digitChar_ne_dot d2 hd2
  have hnem2 : ¬ digitChar m2 = '.' := digitChar_ne_dot m2 hm2
  have hmatches : dmyMatches [digitChar d1, digitChar d2, '.',
      digitChar m1, digitChar m2, '.',
      digitChar y1, digitChar y2, digitChar y3, digitChar y4]
      = if (1 ≤ dy ∧ dy ≤ 31) ∧ (1 ≤ mo ∧ mo ≤ 12) then [(dy, mo, yr)]
        else [] := by
    unfold dmyMatches
    rw [dayCands_digits d1 d2 hd1 hd2]
    by_cases hday : 1 ≤ dy ∧ dy ≤ 31 <;>
      by_cases hmon : 1 ≤ mo ∧ mo ≤ 12 <;>
        by_cases hd1p : 1 ≤ d1 <;>
          by_cases hm1p : 1 ≤ m1 <;>
            simp [hday, hmon, hd1p, hm1p, hne2, hnem2,
              monthCands_digits m1 m2 hm1 hm2,
              yearParse_digits y1 y2 y3 y4 hy1 hy2 hy3 hy4, ← hdy, ← hmo,
              ← hyr]
  by_cases hcond : (1 ≤ dy ∧ dy ≤ 31) ∧ (1 ≤ mo ∧ mo ≤ 12)
  · rw [if_pos hcond] at hmatches
    by_cases hv : isValidDate yr mo dy = true
    · simp [birthdayInit, strptimeDMY, hmatches, hv]
    · simp [birthdayInit, strptimeDMY, hmatches, hv]
  · rw [if_neg hcond] at hmatches
    have hvfalse : ¬ isValidDate yr mo dy = true := by
      intro hv
      simp only [isValidDate, Bool.and_eq_true, decide_eq_true_eq] at hv
      have h31 := daysInMonth_le_31 yr mo
      omega
    simp [birthdayInit, strptimeDMY, hmatches, hvfalse]

/-- Witness for C4_birthday_validation at the digits of "05.06.1990". -/
theorem C4_birthday_validation_witness :
    birthdayInit (String.mk [digitChar 0, digitChar 5, '.', digitChar 0,
        digitChar 6, '.', digitChar 1, digitChar 9, digitChar 9,
        digitChar 0])
      = .ok ⟨1990, 6, 5⟩ :=
  ((C4_birthday_validation 0 5 0 6 1 9 9 0 (by decide) (by decide)
      (by decide) (by decide) (by decide) (by decide) (by decide)
      (by decide)).1).mpr (by decide)

end AssistantBot
